import Mathlib

set_option linter.unusedVariables false

/-!
Verification of the genotype-phenotype (G2P) association subsystem of the
ga4gh reference server (`ga4gh/datamodel/genotype_phenotype.py` and
`ga4gh/datamodel/genotype_phenotype_featureset.py`).

The Python module is shallowly embedded below.  Python strings are modelled
by `String` (a list of characters), Python dicts by association lists with
update-in-place insertion, raised exceptions by `Except PyError`, and the
external rdflib graph by an explicit record of its namespace table and its
triple list.  The SPARQL engine itself is external to the repository; the
main entry point is therefore parameterised by a query oracle
`runQuery : String → List Row`, so that statements about "no query is
executed" become statements that hold for every oracle.

Modelling notes for the external rdflib library (not part of the repository):
an `rdflib.term.Variable` stores the variable name without the leading `?`
(its constructor strips one) while `toPython` renders it with the `?`; the
membership tests `'?feature' in association` (genotype_phenotype.py line 139)
and `'feature' in row` (line 216) are both modelled as testing whether the
variable named `feature` is bound in the result row, which is the behaviour
documented by the example bindings quoted in the module's own comments.
-/

/-- The exceptions raised by the embedded code.  `NotImplementedException`
is the class `ga4gh.exceptions.NotImplementedException` that the module
raises (the `ga4gh/exceptions.py` module itself is not in the sources);
`KeyError`, `ValueError` and `TypeError` model the corresponding Python
built-in exceptions escaping from unguarded dict lookups, tuple unpacking
and type confusion. -/
inductive PyError where
  | NotImplementedException (msg : String)
  | KeyError (key : String)
  | ValueError (msg : String)
  | TypeError (msg : String)
  deriving DecidableEq, Repr

/-- A Python value as it appears inside an entity detail bag: either a single
string or a list of strings.  The spec claims the bag is polymorphic in this
way; the embedding keeps both shapes representable so the claim can be
stated. -/
inductive PyVal where
  | s (v : String)
  | l (vs : List String)
  deriving DecidableEq, Repr

/-- Render an optional string the way Python's `str.format` renders an
argument that may be `None`. -/
def pyOptStr : Option String → String
  | none => "None"
  | some s => s

/-- Embedding of Python's `str.split(sep)` (single-character separator):
worker on character lists with an accumulator for the current field. -/
def pySplitAux (sep : Char) : List Char → List Char → List (List Char)
  | [], acc => [acc.reverse]
  | c :: cs, acc =>
    if c == sep then acc.reverse :: pySplitAux sep cs []
    else pySplitAux sep cs (c :: acc)

/-- Embedding of Python's `str.split(sep)` for a single-character separator. -/
def pySplit (s : String) (sep : Char) : List String :=
  (pySplitAux sep s.data []).map String.mk

/-- Embedding of Python's `str.join`: `sep.join(xs)`. -/
def pyJoin (sep : String) : List String → String
  | [] => ""
  | [x] => x
  | x :: xs => x ++ sep ++ pyJoin sep xs

/-- Worker for Python's `str.replace(pat, repl)`: replaces every
non-overlapping occurrence left to right.  The `fuel` argument is only a
termination device; it is called with the length of the subject string,
which bounds the number of steps. -/
def pyReplaceAux (pat repl : List Char) : Nat → List Char → List Char
  | _, [] => []
  | 0, s => s
  | fuel + 1, c :: cs =>
    if !pat.isEmpty && pat.isPrefixOf (c :: cs) then
      repl ++ pyReplaceAux pat repl fuel ((c :: cs).drop pat.length)
    else
      c :: pyReplaceAux pat repl fuel cs

/-- Embedding of Python's `str.replace(pat, repl)` (all occurrences). -/
def pyReplace (s pat repl : String) : String :=
  String.mk (pyReplaceAux pat.data repl.data s.data.length s.data)

/-- Embedding of Python's substring test `a in b`. -/
def pyInStr (a b : String) : Bool :=
  (List.range (b.data.length + 1)).any (fun i => a.data.isPrefixOf (b.data.drop i))

/-- Run `f` over `l` left to right, stopping at the first error: the
evaluation order of a Python `for` loop that may raise. -/
def mapExcept (f : α → Except PyError β) : List α → Except PyError (List β)
  | [] => .ok []
  | a :: as => do
    let b ← f a
    let bs ← mapExcept f as
    .ok (b :: bs)

deriving instance DecidableEq for Except

/-- One RDF triple of the loaded graph (all values already rendered as the
plain strings that `toPython` would produce). -/
structure Triple where
  subj : String
  pred : String
  obj : String
  deriving DecidableEq, Repr

/-- The external rdflib graph as the module observes it: the namespace
table returned by `self._rdfGraph.namespaces()` (pairs of short name and
namespace URI, in iteration order) and the triple list queried through
`self._rdfGraph.triples`. -/
structure Graph where
  namespaces : List (String × String)
  triples : List Triple
  deriving DecidableEq, Repr

/-- annotation key `rdf-syntax-ns#type` (genotype_phenotype.py line 519). -/
def TYPE : String := "http://www.w3.org/1999/02/22-rdf-syntax-ns#type"

/-- annotation key `rdf-schema#label` (genotype_phenotype.py line 520). -/
def LABEL : String := "http://www.w3.org/2000/01/rdf-schema#label"

/-- the fixed `has quality` key (genotype_phenotype.py line 136). -/
def HAS_QUALITY : String := "http://purl.obolibrary.org/obo/BFO_0000159"

/-- Embedding of `PhenotypeAssociationSet._toNamespaceURL` (lines 419-430):
`term.split(':')` is unpacked into exactly two variables, so a term with
any number of `:` other than one raises a Python `ValueError` before the
namespace table is consulted; otherwise the first namespace whose short
name equals the part before the `:` is concatenated with the part after
it, and if none matches an `exceptions.NotImplementedException` is
raised. -/
def toNamespaceURL (g : Graph) (term : String) : Except PyError String :=
  match pySplit term ':' with
  | [termPre, termId] =>
    match g.namespaces.find? (fun kv => kv.1 == termPre) with
    | some kv => .ok (kv.2 ++ termId)
    | none => .error (.NotImplementedException
        ("Term has a prefix not found in this instance. " ++ term))
  | parts => .error (.ValueError
      (if parts.length < 2 then "need more than 1 value to unpack"
       else "too many values to unpack"))

/-- Embedding of `_getIdentifier` (lines 432-441): the first namespace URI
that occurs inside `url` is stripped from it; `None` when no namespace
matches. -/
def getIdentifier (g : Graph) (url : String) : Option String :=
  (g.namespaces.find? (fun kv => pyInStr kv.2 url)).map
    (fun kv => pyReplace url kv.2 "")

/-- Embedding of `_getPrefix` (lines 443-453, inner name kept out of the
identifier): returns the short name of the namespace whose URI equals
`url`; the argument may be Python's `None` (an `Option` here), which equals
no URI, and a miss raises `exceptions.NotImplementedException`. -/
def getShortName (g : Graph) (url : Option String) : Except PyError String :=
  match g.namespaces.find? (fun kv => some kv.2 == url) with
  | some kv => .ok kv.1
  | none => .error (.NotImplementedException
      ("No namespace found for url " ++ pyOptStr url))

/-- Embedding of `_getPrefixURL` (lines 455-464): the first namespace URI
occurring inside `url`, or `None`. -/
def getNamespaceOf (g : Graph) (url : String) : Option String :=
  (g.namespaces.find? (fun kv => pyInStr kv.2 url)).map (fun kv => kv.2)

/-- The SPARQL query template of `_formatFilterQuery` (lines 300-329),
transcribed byte for byte (it is identical to the template expected by the
unit test `testFormatQuery`). -/
def queryTemplate : String :=
  "\n" ++
  "            PREFIX OBAN: <http://purl.org/oban/>\n" ++
  "            PREFIX OBO: <http://purl.obolibrary.org/obo/>\n" ++
  "            PREFIX dc: <http://purl.org/dc/elements/1.1/>\n" ++
  "            PREFIX rdfs: <http://www.w3.org/2000/01/rdf-schema#>\n" ++
  "            SELECT\n" ++
  "                ?association\n" ++
  "                ?environment\n" ++
  "                ?environment_label\n" ++
  "                ?feature\n" ++
  "                ?feature_label\n" ++
  "                ?phenotype\n" ++
  "                ?phenotype_label\n" ++
  "                (GROUP_CONCAT(?source; separator=\"|\") AS ?sources)\n" ++
  "                ?evidence_type\n" ++
  "                WHERE \x7b\n" ++
  "                    ?association  a OBAN:association .\n" ++
  "                    ?association    OBO:RO_0002558 ?evidence_type .\n" ++
  "                    ?association    OBO:RO_has_environment ?environment   .\n" ++
  "                    OPTIONAL \x7b ?association  dc:source ?source \x7d .\n" ++
  "                    ?association    OBAN:association_has_subject ?feature .\n" ++
  "                    ?association    OBAN:association_has_object ?phenotype .\n" ++
  "                    ?environment  rdfs:label ?environment_label  .\n" ++
  "                    ?phenotype  rdfs:label ?phenotype_label  .\n" ++
  "                    ?feature  rdfs:label ?feature_label  .\n" ++
  "                    #%FILTER%\n" ++
  "                    \x7d\n" ++
  "            GROUP  BY ?association\n" ++
  "            ORDER  BY ?association\n" ++
  ""

/-- An ontology term of a structured filter criterion: the optional
explicit `id` and the `term` string resolved through the namespace table
when the `id` is absent or empty (Python falsy). -/
structure OntTerm where
  id : Option String := none
  term : String := ""
  deriving DecidableEq, Repr

/-- An external identifier of a structured filter criterion. -/
structure ExternalId where
  database : String := ""
  identifier : String := ""
  deriving DecidableEq, Repr

/-- One of the three filter arguments of `getAssociations`: Python's
`None`, a free-text string, or a structured dict with `ids` and `terms`
lists (an absent dict key behaves as an empty list under the code's
`feature.get('ids')` truthiness guards). -/
inductive FilterCriterion where
  | none
  | str (s : String)
  | dict (ids : List ExternalId) (terms : List OntTerm)
  deriving DecidableEq, Repr

/-- Python truthiness of a filter criterion: `None` and the empty string
are falsy; a dict is truthy when it carries any entries. -/
def pyTruthy : FilterCriterion → Bool
  | .none => false
  | .str s => !s.isEmpty
  | .dict ids terms => !(ids.isEmpty && terms.isEmpty)

/-- The regex filter contributed by a role whose criterion is a truthy
string (lines 337-344), e.g. `regex(?feature_label, "...")`. -/
def strFilter (role : String) : FilterCriterion → List String
  | .str s => if s.isEmpty then [] else
      ["regex(?" ++ role ++ "_label, \"" ++ s ++ "\")"]
  | _ => []

/-- The OR-group over external-identifier URIs contributed by a structured
criterion (lines 347-355 and their environment/phenotype copies): one
`?role = <database+identifier> ` equality per id, joined by `||` and
parenthesised. -/
def idsFilter (role : String) : FilterCriterion → List String
  | .dict ids _ =>
    if ids.isEmpty then [] else
      ["(" ++ pyJoin " || "
        (ids.map (fun i => "?" ++ role ++ " = <" ++ (i.database ++ i.identifier) ++ "> ")) ++ ")"]
  | _ => []

/-- The clause contributed by one ontology term (lines 359-365 and their
copies): an exact URI equality against the explicit id when it is truthy,
otherwise against the term resolved through the namespace table (which may
raise). -/
def termClause (g : Graph) (role : String) (t : OntTerm) : Except PyError String :=
  match t.id with
  | some s =>
    if s.isEmpty then
      (toNamespaceURL g t.term).map (fun u => "?" ++ role ++ " = <" ++ u ++ "> ")
    else .ok ("?" ++ role ++ " = <" ++ s ++ "> ")
  | none =>
    (toNamespaceURL g t.term).map (fun u => "?" ++ role ++ " = <" ++ u ++ "> ")

/-- The OR-group over ontology-term URIs contributed by a structured
criterion (lines 357-367 and their copies). -/
def termsFilter (g : Graph) (role : String) : FilterCriterion → Except PyError (List String)
  | .dict _ terms =>
    if terms.isEmpty then .ok [] else do
      let cs ← mapExcept (termClause g role) terms
      .ok ["(" ++ pyJoin " || " cs ++ ")"]
  | _ => .ok []

/-- Embedding of `PhenotypeAssociationSet._formatFilterQuery` (lines
295-417).  When all three criteria are `None` it raises
`exceptions.NotImplementedException`; otherwise the filters are collected
in source order (string regexes for feature, environment, phenotype, then
ids and terms groups per role), ANDed, and substituted for the
`#%FILTER%` placeholder of the template. -/
def formatFilterQuery (g : Graph) (feature environment phenotype : FilterCriterion) :
    Except PyError String :=
  match feature, environment, phenotype with
  | .none, .none, .none => .error (.NotImplementedException
      "At least one of [feature, environment, phenotype] must be specified")
  | f, e, p => do
    let strs := strFilter "feature" f ++ strFilter "environment" e ++ strFilter "phenotype" p
    let fIds := idsFilter "feature" f
    let fTerms ← termsFilter g "feature" f
    let eIds := idsFilter "environment" e
    let eTerms ← termsFilter g "environment" e
    let pIds := idsFilter "phenotype" p
    let pTerms ← termsFilter g "phenotype" p
    let filters := strs ++ fIds ++ fTerms ++ eIds ++ eTerms ++ pIds ++ pTerms
    .ok (pyReplace queryTemplate "#%FILTER%"
      ("FILTER (" ++ pyJoin " && " filters ++ ")"))

/-- One SPARQL result row: the bound variables (bare names, as stored by
`rdflib.term.Variable`) with their `toPython` string values. -/
abbrev Row : Type := List (String × String)

/-- Whether the variable named `k` is bound in the row: the embedding of
the membership tests `'?feature' in association` and `'feature' in row`
(see the modelling note at the top of the file). -/
def rowHasKey (row : Row) (k : String) : Bool :=
  (List.lookup k row).isSome

/-- A Python dict lookup `row[k]`: raises `KeyError` on a missing key. -/
def rowGet (row : Row) (k : String) : Except PyError String :=
  match List.lookup k row with
  | some v => .ok v
  | none => .error (.KeyError k)

/-- Embedding of `_bindingsToDict` (lines 266-274): every key is rendered
by `Variable.toPython` (which prepends a `?`) and the `?` characters are
then stripped again by `str.replace`. -/
def bindingsToDict (row : Row) : Row :=
  row.map (fun kv => (pyReplace ("?" ++ kv.1) "?" "", kv.2))

/-- An entity detail bag: a Python dict from predicate URI to value,
modelled as an association list with update-in-place insertion. -/
abbrev Bag : Type := List (String × PyVal)

/-- Python dict assignment `d[k] = v`: overwrite the existing entry for
`k`, or append a fresh one. -/
def pyDictSet (d : Bag) (k : String) (v : PyVal) : Bag :=
  if d.any (fun kv => kv.1 == k) then
    d.map (fun kv => if kv.1 == k then (kv.1, v) else kv)
  else d ++ [(k, v)]

/-- A Python dict lookup in a bag: raises `KeyError` on a missing key. -/
def bagGet (d : Bag) (k : String) : Except PyError PyVal :=
  match List.lookup k d with
  | some v => .ok v
  | none => .error (.KeyError k)

/-- One `{subject, predicate, object}` record of `_detailTuples`. -/
structure Detail where
  subject : String
  predicate : String
  obj : String
  deriving DecidableEq, Repr

/-- Embedding of `_detailTuples` (lines 250-264): for every URI in order,
all graph triples with that subject, flattened into subject/predicate/object
records. -/
def detailTuples (g : Graph) (uriRefs : List String) : List Detail :=
  uriRefs.flatMap (fun u =>
    (g.triples.filter (fun t => t.subj == u)).map
      (fun t => { subject := t.subj, predicate := t.pred, obj := t.obj }))

/-- One iteration of the `_getDetails` loop (lines 289-292): a record whose
subject matches writes its object under its predicate (overwriting any
earlier value), and every iteration then writes the URI itself under
`id`. -/
def detailStep (uriRef : String) (bag : Bag) (d : Detail) : Bag :=
  let bag := if d.subject == uriRef then pyDictSet bag d.predicate (.s d.obj) else bag
  pyDictSet bag "id" (.s uriRef)

/-- Embedding of `_getDetails` (lines 283-293): a fold of `detailStep`
over the detail records, starting from the empty dict. -/
def getDetails (uriRef : String) (assocationDetails : List Detail) : Bag :=
  assocationDetails.foldl (detailStep uriRef) []

/-- Embedding of `_extractAssociationsDetails` (lines 208-248): rows in
which `feature` is bound contribute their feature, environment and
phenotype URIs, in that order; the environment and phenotype lookups are
unguarded dict accesses. -/
def extractAssociationsDetails : List Row → Except PyError (List String)
  | [] => .ok []
  | row :: rest =>
    if rowHasKey row "feature" then do
      let f ← rowGet row "feature"
      let e ← rowGet row "environment"
      let p ← rowGet row "phenotype"
      let tail ← extractAssociationsDetails rest
      .ok (f :: e :: p :: tail)
    else extractAssociationsDetails rest

/-- The hydrated association record assembled by the loop of
`getAssociations` (lines 138-152) before translation. -/
structure Assoc where
  bindings : Row
  feature : Bag
  environment : Bag
  phenotype : Bag
  evidence : PyVal
  id : String
  deriving DecidableEq, Repr

/-- The body of the `getAssociations` loop for one kept row (lines
140-152): convert the bindings, hydrate the three entity bags, extract the
`has quality` value of the phenotype bag (an unguarded lookup), and record
the association URI as `id`. -/
def mkAssoc (details : List Detail) (row : Row) : Except PyError Assoc := do
  let d := bindingsToDict row
  let fU ← rowGet d "feature"
  let fBag := getDetails fU details
  let eU ← rowGet d "environment"
  let eBag := getDetails eU details
  let pU ← rowGet d "phenotype"
  let pBag := getDetails pU details
  let ev ← bagGet pBag HAS_QUALITY
  let aId ← rowGet d "association"
  .ok { bindings := d, feature := fBag, environment := eBag,
        phenotype := pBag, evidence := ev, id := aId }

/-- The `getAssociations` loop over all rows (lines 137-152): rows without
a `feature` binding are skipped, the others are processed in order. -/
def buildAssociationList (details : List Detail) (rows : List Row) :
    Except PyError (List Assoc) :=
  mapExcept (mkAssoc details) (rows.filter (fun r => rowHasKey r "feature"))

/-- The protocol `OntologyTerm` as populated via `fromJsonDict`; fields the
code leaves unset keep the protocol defaults (empty string / `None`). -/
structure OntologyTermP where
  term : PyVal := .s ""
  id : PyVal := .s ""
  sourceVersion : Option String := none
  sourceName : Option String := none
  deriving DecidableEq, Repr

/-- The protocol `Feature` as populated by `_toGA4GH`. -/
structure FeatureP where
  featureType : OntologyTermP := {}
  id : PyVal := .s ""
  referenceName : PyVal := .s ""
  attributes : Bag := []
  childIds : List String := []
  deriving DecidableEq, Repr

/-- The protocol `Evidence` as populated by `_toGA4GH` (its description is
the result of `_getIdentifier`, which may be Python's `None`). -/
structure EvidenceP where
  evidenceType : OntologyTermP := {}
  description : Option String := none
  deriving DecidableEq, Repr

/-- The protocol `EnvironmentalContext` as populated by `_toGA4GH`. -/
structure EnvironmentalContextP where
  id : PyVal := .s ""
  description : String := ""
  environmentType : OntologyTermP := {}
  deriving DecidableEq, Repr

/-- The protocol `PhenotypeInstance` as populated by `_toGA4GH`. -/
structure PhenotypeInstanceP where
  type : OntologyTermP := {}
  description : PyVal := .s ""
  deriving DecidableEq, Repr

/-- The protocol `FeaturePhenotypeAssociation`. -/
structure FPAssoc where
  id : String := ""
  features : List FeatureP := []
  description : String := ""
  evidence : List EvidenceP := []
  environmentalContexts : List EnvironmentalContextP := []
  phenotype : PhenotypeInstanceP := {}
  phenotypeAssociationSetId : String := ""
  deriving DecidableEq, Repr

/-- The `has quality` value of an association is used by `_toGA4GH` as a
plain URL string; a list value there would make Python's string operations
fail, modelled as a `TypeError`. -/
def pyValAsStr : PyVal → Except PyError String
  | .s v => .ok v
  | .l _ => .error (.TypeError "expected string, found list")

/-- Embedding of `_toGA4GH` (lines 466-608): one hydrated record is mapped
to a protocol `FeaturePhenotypeAssociation`.  The fallible dict lookups are
sequenced in source evaluation order; `self._version` and `self.getId()`
are the `version` and `setId` parameters.  Note that the evidence list is
always the singleton `[evidence]` built at lines 559-570, with description
`_getIdentifier(association['evidence'])`. -/
def toGA4GH (g : Graph) (setId : String) (version : Option String) (a : Assoc) :
    Except PyError FPAssoc := do
  let fBag := a.feature
  let ft ← bagGet fBag TYPE
  let fId ← bagGet fBag "id"
  let sName ← getShortName g (getNamespaceOf g a.id)
  let refName ← bagGet fBag LABEL
  let fl ← rowGet a.bindings "feature_label"
  let pl ← rowGet a.bindings "phenotype_label"
  let el ← rowGet a.bindings "environment_label"
  let evU ← pyValAsStr a.evidence
  let srcs ← rowGet a.bindings "sources"
  let evType ← rowGet a.bindings "evidence_type"
  let pBag := a.phenotype
  let pId ← bagGet pBag "id"
  let eBag := a.environment
  let envId ← bagGet eBag "id"
  let pT ← bagGet pBag TYPE
  let pL ← bagGet pBag LABEL
  .ok {
    id := a.id
    features := [{
      featureType :=
        { term := ft, id := fId, sourceVersion := version, sourceName := some sName }
      id := fId
      referenceName := refName
      attributes := fBag
      childIds := [] }]
    description :=
      "Association: genotype:[" ++ fl ++ "] phenotype:[" ++ pl ++
      "] environment:[" ++ el ++ "] evidence:[" ++ pyOptStr (getIdentifier g evU) ++
      "] publications:[" ++ srcs ++ "]"
    evidence := [{
      evidenceType :=
        { term := .s evType, id := pId, sourceVersion := version, sourceName := some sName }
      description := getIdentifier g evU }]
    environmentalContexts := [{
      id := envId
      description := el
      environmentType :=
        { term := envId, id := .s "http://purl.obolibrary.org/obo/RO_0002606",
          sourceVersion := version, sourceName := some sName } }]
    phenotype :=
      { type := { term := pT, id := pId, sourceVersion := version, sourceName := some sName }
        description := pL }
    phenotypeAssociationSetId := setId }

/-- The part of `getAssociations` that runs after the SPARQL query returned
its binding rows (lines 126-206): collect the detail URIs of the kept rows,
hydrate them, build the association records, and translate each one. -/
def processAssociations (g : Graph) (setId : String) (version : Option String)
    (rows : List Row) : Except PyError (List FPAssoc) := do
  let uris ← extractAssociationsDetails rows
  let details := detailTuples g uris
  let al ← buildAssociationList details rows
  mapExcept (toGA4GH g setId version) al

/-- Embedding of `PhenotypeAssociationSet.getAssociations` (lines 90-206).
The SPARQL engine is the oracle `runQuery`; `pageSize` and `offset` are
accepted exactly as in the source, whose body never reads them. -/
def getAssociations (g : Graph) (setId : String) (version : Option String)
    (runQuery : String → List Row)
    (feature environment phenotype : FilterCriterion)
    (pageSize : Option Nat) (offset : Nat) : Except PyError (List FPAssoc) := do
  let query ← formatFilterQuery g feature environment phenotype
  processAssociations g setId version (runQuery query)

/-- The synthetic association built by
`SimulatedPhenotypeAssociationSet.getAssociations` (lines 44-54): only the
listed fields are assigned; everything else keeps the protocol default. -/
def syntheticFPA (setId : String) : FPAssoc :=
  { id := "test"
    features := []
    evidence := []
    environmentalContexts := []
    phenotype := { type := { id := .s "test" } }
    phenotypeAssociationSetId := setId }

/-- Embedding of `SimulatedPhenotypeAssociationSet.getAssociations` (lines
41-56): a single synthetic association when any criterion is truthy, an
empty list otherwise; no graph is consulted and nothing can fail. -/
def simulatedGetAssociations (setId : String)
    (feature environment phenotype : FilterCriterion)
    (pageSize : Option Nat) (offset : Nat) : List FPAssoc :=
  if pyTruthy feature || pyTruthy environment || pyTruthy phenotype then
    [syntheticFPA setId]
  else []

/-- Turn an optional free-text string into a filter criterion. -/
def strCrit : Option String → FilterCriterion
  | none => .none
  | some s => .str s

/-- Feature URI of the worked example documented in the module's own
comments (lines 104-123). -/
def featureURI : String := "http://ohsu.edu/cgd/27d2169c"

/-- Environment URI of the worked example. -/
def environmentURI : String := "http://www.drugbank.ca/drugs/DB00619"

/-- Phenotype URI of the worked example. -/
def phenotypeURI : String := "http://ohsu.edu/cgd/87752f6c"

/-- Association URI of the worked example. -/
def associationURI : String := "http://ohsu.edu/cgd/4657f28c"

/-- Evidence URI of the worked example. -/
def evidenceURI : String := "http://ohsu.edu/cgd/decreased_sensitivity"

/-- A small concrete graph shaped like the CGD data documented in the
module's comments: three namespace bindings and the detail triples of one
association's feature, environment and phenotype. -/
def gGolden : Graph :=
  { namespaces := [
      ("OBO", "http://purl.obolibrary.org/obo/"),
      ("CGD", "http://ohsu.edu/cgd/"),
      ("DrugBank", "http://www.drugbank.ca/drugs/")]
    triples := [
      { subj := featureURI, pred := TYPE,
        obj := "http://purl.obolibrary.org/obo/SO_0001059" },
      { subj := featureURI, pred := LABEL, obj := "KIT wild type no mutation" },
      { subj := environmentURI, pred := LABEL, obj := "imatinib" },
      { subj := phenotypeURI, pred := HAS_QUALITY, obj := evidenceURI },
      { subj := phenotypeURI, pred := TYPE,
        obj := "http://purl.obolibrary.org/obo/OMIM_606764" },
      { subj := phenotypeURI, pred := LABEL,
        obj := "GIST with decreased sensitivity to therapy" }] }

/-- The same graph without the `has quality` triple of the phenotype. -/
def gNoQuality : Graph :=
  { namespaces := gGolden.namespaces
    triples := gGolden.triples.filter (fun t => t.pred != HAS_QUALITY) }

/-- One complete SPARQL binding row for the worked example. -/
def rowGolden : Row :=
  [("association", associationURI),
   ("environment", environmentURI),
   ("feature", featureURI),
   ("environment_label", "imatinib"),
   ("feature_label", "KIT wild type no mutation"),
   ("phenotype_label", "GIST with decreased sensitivity to therapy"),
   ("sources", "http://www.ncbi.nlm.nih.gov/pubmed/18955458"),
   ("phenotype", phenotypeURI),
   ("evidence_type", "http://purl.obolibrary.org/obo/ECO_0000033")]

/-- A result set with one placeholder row (no bindings at all) and one
complete row. -/
def rowsGolden : List Row := [[], rowGolden]

/-- The hydrated details of the worked example. -/
def detailsGolden : List Detail :=
  detailTuples gGolden [featureURI, environmentURI, phenotypeURI]

/-- A hydrated association record of the worked example, as the
`getAssociations` loop would assemble it; its evidence type
(`ECO_0000033`) has no label anywhere in the graph. -/
def assocGolden : Assoc :=
  { bindings := rowGolden
    feature := getDetails featureURI detailsGolden
    environment := getDetails environmentURI detailsGolden
    phenotype := getDetails phenotypeURI detailsGolden
    evidence := .s evidenceURI
    id := associationURI }

/-- Detail list in which the predicate `p` occurs twice for subject `u`. -/
def detailsTwice : List Detail :=
  [{ subject := "u", predicate := "p", obj := "a" },
   { subject := "u", predicate := "p", obj := "b" }]

/-- Namespace table for the prefix-resolution counterexample. -/
def gDrugBank : Graph :=
  { namespaces := [("DrugBank", "http://www.drugbank.ca/drugs/")], triples := [] }

theorem mapExcept_ok_length {α β : Type} (f : α → Except PyError β) :
    ∀ (l : List α) (res : List β), mapExcept f l = .ok res → res.length = l.length := by
  intro l
  induction l with
  | nil =>
    intro res h
    simp [mapExcept] at h
    simp [← h]
  | cons a as ih =>
    intro res h
    simp only [mapExcept, bind, Except.bind] at h
    cases hfa : f a with
    | error e => rw [hfa] at h; exact absurd h (by simp)
    | ok b =>
      rw [hfa] at h
      cases hrec : mapExcept f as with
      | error e => rw [hrec] at h; exact absurd h (by simp)
      | ok bs =>
        rw [hrec] at h
        simp at h
        simp [← h, ih bs hrec]

theorem mapExcept_ok_of_forall {α β : Type} (f : α → Except PyError β) (h : α → β) :
    ∀ (l : List α), (∀ a ∈ l, f a = .ok (h a)) → mapExcept f l = .ok (l.map h) := by
  intro l
  induction l with
  | nil => intro _; simp [mapExcept]
  | cons a as ih =>
    intro hall
    simp only [mapExcept, bind, Except.bind]
    rw [hall a (by simp), ih (fun x hx => hall x (by simp [hx]))]
    simp

/-- C1: calling the retrieval operation with all three filter criteria
absent fails inside the query builder, for every page size and offset, and
independently of the query oracle (so no query is ever executed); the
raised exception is `exceptions.NotImplementedException`, carrying the
"at least one of feature/environment/phenotype" message the spec's
taxonomy labels InvalidArgumentError. -/
theorem noFilterRejection (g : Graph) (setId : String) (version : Option String)
    (runQuery : String → List Row) (pageSize : Option Nat) (offset : Nat) :
    formatFilterQuery g .none .none .none =
      .error (.NotImplementedException
        "At least one of [feature, environment, phenotype] must be specified") ∧
    getAssociations g setId version runQuery .none .none .none pageSize offset =
      .error (.NotImplementedException
        "At least one of [feature, environment, phenotype] must be specified") := by
  exact ⟨rfl, rfl⟩

/-- C8: `pageSize` and `offset` never influence the result of
`getAssociations`: the body of the source function never reads them, so
any two calls differing only in those arguments are equal. -/
theorem pageSizeOffsetIrrelevant (g : Graph) (setId : String) (version : Option String)
    (runQuery : String → List Row) (feature environment phenotype : FilterCriterion)
    (ps1 ps2 : Option Nat) (off1 off2 : Nat) :
    getAssociations g setId version runQuery feature environment phenotype ps1 off1 =
    getAssociations g setId version runQuery feature environment phenotype ps2 off2 := by
  rfl

/-- C9: the simulated association set returns the single synthetic
association exactly when one of the three criteria is truthy, and the
empty list when all three are absent; it is a pure function of its
arguments (no graph parameter, no error). -/
theorem simulatedBehaviour :
    (∀ (setId : String) (f e p : FilterCriterion) (ps : Option Nat) (off : Nat),
      (pyTruthy f || pyTruthy e || pyTruthy p) = true →
        simulatedGetAssociations setId f e p ps off = [syntheticFPA setId]) ∧
    (∀ (setId : String) (ps : Option Nat) (off : Nat),
      simulatedGetAssociations setId .none .none .none ps off = []) := by
  constructor
  · intro setId f e p ps off h
    simp [simulatedGetAssociations, h]
  · intro setId ps off
    rfl

/-- Witness for C9 at a concrete truthy criterion. -/
theorem simulatedBehaviourWitness :
    (pyTruthy (.str "imatinib") || pyTruthy .none || pyTruthy .none) = true ∧
    simulatedGetAssociations "pas" (.str "imatinib") .none .none none 0 = [syntheticFPA "pas"] :=
  ⟨by decide, simulatedBehaviour.1 "pas" (.str "imatinib") .none .none none 0 (by decide)⟩

theorem lookup_map_update (d : Bag) (k : String) (v : PyVal) :
    List.lookup k (d.map (fun kv => if kv.1 == k then (kv.1, v) else kv)) =
      (List.lookup k d).map (fun _ => v) := by
  induction d with
  | nil => rfl
  | cons kv d ih =>
    cases hb : (kv.1 == k) with
    | true =>
      have hk : kv.1 = k := by simpa using hb
      have hkb : (k == kv.1) = true := by simp [hk]
      rw [List.map_cons, if_pos hb]
      simp [List.lookup, hkb]
    | false =>
      have hk : ¬ kv.1 = k := by simpa using hb
      have hkb : (k == kv.1) = false := by simp; exact fun hh => hk hh.symm
      rw [List.map_cons, if_neg (by simp [hb])]
      simp only [List.lookup, hkb]
      exact ih

theorem lookup_map_update_ne (d : Bag) (k k2 : String) (v : PyVal) (hne : k2 ≠ k) :
    List.lookup k2 (d.map (fun kv => if kv.1 == k then (kv.1, v) else kv)) =
      List.lookup k2 d := by
  induction d with
  | nil => rfl
  | cons kv d ih =>
    cases hb : (kv.1 == k) with
    | true =>
      have hk : kv.1 = k := by simpa using hb
      have hkb : (k2 == kv.1) = false := by simp [hk]; exact hne
      rw [List.map_cons, if_pos hb]
      simp only [List.lookup, hkb]
      exact ih
    | false =>
      rw [List.map_cons, if_neg (by simp [hb])]
      cases hb2 : (k2 == kv.1) with
      | true => simp [List.lookup, hb2]
      | false =>
        simp only [List.lookup, hb2]
        exact ih

theorem lookup_isSome_of_any (d : Bag) (k : String)
    (h : d.any (fun kv => kv.1 == k) = true) : (List.lookup k d).isSome = true := by
  induction d with
  | nil => simp at h
  | cons kv d ih =>
    cases hb : (k == kv.1) with
    | true => simp [List.lookup, hb]
    | false =>
      have hb2 : (kv.1 == k) = false := by
        simp at hb ⊢
        exact fun hh => hb hh.symm
      rw [List.any_cons, hb2, Bool.false_or] at h
      simp [List.lookup, hb, ih h]

theorem lookup_none_of_any_eq_false (d : Bag) (k : String)
    (h : d.any (fun kv => kv.1 == k) = false) : List.lookup k d = none := by
  induction d with
  | nil => rfl
  | cons kv d ih =>
    rw [List.any_cons, Bool.or_eq_false_iff] at h
    have hb : (k == kv.1) = false := by
      simp at h ⊢
      exact fun hh => h.1 hh.symm
    simp [List.lookup, hb, ih h.2]

theorem lookup_append_single (d : Bag) (k k2 : String) (v : PyVal) :
    List.lookup k2 (d ++ [(k, v)]) =
      match List.lookup k2 d with
      | some w => some w
      | none => if k2 = k then some v else none := by
  induction d with
  | nil =>
    cases hb : (k2 == k) with
    | true =>
      have : k2 = k := by simpa using hb
      simp [List.lookup, hb, this]
    | false =>
      have : ¬ k2 = k := by simpa using hb
      simp [List.lookup, hb, this]
  | cons kv d ih =>
    cases hb : (k2 == kv.1) with
    | true => simp [List.lookup, hb]
    | false => simp [List.lookup, hb, ih]

theorem lookup_pyDictSet (d : Bag) (k k2 : String) (v : PyVal) :
    List.lookup k2 (pyDictSet d k v) =
      if k2 = k then some v else List.lookup k2 d := by
  unfold pyDictSet
  cases hany : d.any (fun kv => kv.1 == k) with
  | true =>
    simp only [hany, if_true]
    by_cases hk : k2 = k
    · subst hk
      rw [lookup_map_update]
      have hsome := lookup_isSome_of_any d k2 hany
      cases hl : List.lookup k2 d with
      | none => rw [hl] at hsome; simp at hsome
      | some w => simp
    · rw [lookup_map_update_ne d k k2 v hk]
      simp [hk]
  | false =>
    simp only [hany, Bool.false_eq_true, if_false]
    rw [lookup_append_single]
    by_cases hk : k2 = k
    · subst hk
      simp [lookup_none_of_any_eq_false d k2 hany]
    · cases hl : List.lookup k2 d with
      | none => simp [hk, hl]
      | some w => simp [hk, hl]

theorem lookup_detailStep (uri p : String) (hp : p ≠ "id") (bag : Bag) (d : Detail) :
    List.lookup p (detailStep uri bag d) =
      (if (d.subject == uri && d.predicate == p) then some (PyVal.s d.obj)
       else List.lookup p bag) := by
  unfold detailStep
  rw [lookup_pyDictSet, if_neg hp]
  cases hs : (d.subject == uri) with
  | true =>
    rw [if_pos rfl, lookup_pyDictSet]
    by_cases hpp : p = d.predicate
    · subst hpp
      simp
    · have hdp : (d.predicate == p) = false := by
        simp
        exact fun hh => hpp hh.symm
      simp [hpp, hdp]
  | false =>
    rw [if_neg (by simp)]
    simp

theorem lookup_detailStep_id (uri : String) (bag : Bag) (d : Detail) :
    List.lookup "id" (detailStep uri bag d) = some (PyVal.s uri) := by
  unfold detailStep
  rw [lookup_pyDictSet, if_pos rfl]

theorem getDetails_loop (uri p : String) (hp : p ≠ "id") (l : List Detail) (bag : Bag) :
    List.lookup p (l.foldl (detailStep uri) bag) =
      (match (l.filter (fun d => d.subject == uri && d.predicate == p)).getLast? with
        | some d => some (PyVal.s d.obj)
        | none => List.lookup p bag) := by
  induction l using List.reverseRecOn with
  | nil => simp
  | append_singleton l d ih =>
    rw [List.foldl_append, List.foldl_cons, List.foldl_nil,
      lookup_detailStep uri p hp, List.filter_append]
    cases hm : (d.subject == uri && d.predicate == p) with
    | true =>
      rw [if_pos rfl]
      simp only [List.filter_cons, List.filter_nil, hm, if_true]
      rw [List.getLast?_concat]
    | false =>
      rw [if_neg (by simp)]
      simp only [List.filter_cons, List.filter_nil, hm, Bool.false_eq_true,
        if_false, List.append_nil]
      exact ih

theorem getDetails_loop_id (uri : String) (l : List Detail) (bag : Bag) (hne : l ≠ []) :
    List.lookup "id" (l.foldl (detailStep uri) bag) = some (PyVal.s uri) := by
  induction l using List.reverseRecOn with
  | nil => exact absurd rfl hne
  | append_singleton l d ih =>
    rw [List.foldl_append, List.foldl_cons, List.foldl_nil, lookup_detailStep_id]

/-- C3 corrected: the bag built by `_getDetails` never holds a list.  For
any predicate other than the reserved key `id`, the bag maps it to the
object of the last matching detail triple (later occurrences overwrite
earlier ones), and to nothing when no triple matches; the key `id` maps to
the subject URI exactly when the detail list is non-empty. -/
theorem getDetailsShape (uri : String) (details : List Detail) (p : String)
    (hp : p ≠ "id") :
    List.lookup p (getDetails uri details) =
      (match (details.filter (fun d => d.subject == uri && d.predicate == p)).getLast? with
        | some d => some (PyVal.s d.obj)
        | none => none) ∧
    List.lookup "id" (getDetails uri details) =
      (if details.isEmpty then none else some (PyVal.s uri)) := by
  constructor
  · rw [getDetails, getDetails_loop uri p hp details []]
    rfl
  · cases hd : details with
    | nil => rfl
    | cons x xs =>
      rw [getDetails, getDetails_loop_id uri (x :: xs) [] (by simp)]
      simp

/-- Witness for C3 at the concrete duplicated-predicate input. -/
theorem getDetailsShapeWitness :
    List.lookup "p" (getDetails "u" detailsTwice) =
      (match (detailsTwice.filter (fun d => d.subject == "u" && d.predicate == "p")).getLast? with
        | some d => some (PyVal.s d.obj)
        | none => none) ∧
    List.lookup "id" (getDetails "u" detailsTwice) =
      (if detailsTwice.isEmpty then none else some (PyVal.s "u")) :=
  getDetailsShape "u" detailsTwice "p" (by decide)

/-- C3 counterexample: with two triples carrying the same subject and
predicate, `_getDetails` maps the predicate to the single last value -
never to a list containing both values, as the claim requires. -/
theorem getDetailsNoListCounterexample :
    List.lookup "p" (getDetails "u" detailsTwice) = some (PyVal.s "b") ∧
    ∀ vs : List String, List.lookup "p" (getDetails "u" detailsTwice) ≠ some (PyVal.l vs) := by
  constructor
  · rfl
  · intro vs h
    rw [show List.lookup "p" (getDetails "u" detailsTwice) = some (PyVal.s "b") from rfl] at h
    exact PyVal.noConfusion (Option.some.inj h)

theorem pySplitAux_no_sep (sep : Char) (l : List Char) (acc : List Char) (h : sep ∉ l) :
    pySplitAux sep l acc = [acc.reverse ++ l] := by
  induction l generalizing acc with
  | nil => simp [pySplitAux]
  | cons c cs ih =>
    have hc : (c == sep) = false := by
      simp
      intro hh
      exact h (by simp [hh])
    rw [pySplitAux, if_neg (by simp [hc])]
    rw [ih (c :: acc) (fun hm => h (by simp [hm]))]
    simp

theorem pySplitAux_with_sep (sep : Char) (pfx i acc : List Char) (h : sep ∉ pfx) :
    pySplitAux sep (pfx ++ sep :: i) acc = (acc.reverse ++ pfx) :: pySplitAux sep i [] := by
  induction pfx generalizing acc with
  | nil => simp [pySplitAux]
  | cons c cs ih =>
    have hc : (c == sep) = false := by
      simp
      intro hh
      exact h (by simp [hh])
    rw [List.cons_append, pySplitAux, if_neg (by simp [hc])]
    rw [ih (c :: acc) (fun hm => h (by simp [hm]))]
    simp

theorem pySplit_two (p i : String) (hp : ':' ∉ p.data) (hi : ':' ∉ i.data) :
    pySplit (p ++ ":" ++ i) ':' = [p, i] := by
  unfold pySplit
  have hd : (p ++ ":" ++ i).data = p.data ++ ':' :: i.data := by
    rw [String.data_append, String.data_append,
      show (":" : String).data = [':'] from rfl, List.append_assoc]
    rfl
  rw [hd, pySplitAux_with_sep ':' p.data i.data [] hp, pySplitAux_no_sep ':' i.data [] hi]
  simp

/-- C5 corrected: for a well-formed ontology term `p:i` containing exactly
one colon, `_toNamespaceURL` returns the namespace URI of the first
binding whose short name equals `p`, concatenated with `i`, and raises
`exceptions.NotImplementedException` (the failure the spec's taxonomy
labels NotSupportedError) when no binding matches.  Terms with any other
number of colons crash earlier in tuple unpacking (see the
counterexample). -/
theorem toNamespaceURLSpec (g : Graph) (p i : String)
    (hp : ':' ∉ p.data) (hi : ':' ∉ i.data) :
    toNamespaceURL g (p ++ ":" ++ i) =
      (match g.namespaces.find? (fun kv => kv.1 == p) with
        | some kv => .ok (kv.2 ++ i)
        | none => .error (.NotImplementedException
            ("Term has a prefix not found in this instance. " ++ (p ++ ":" ++ i)))) := by
  unfold toNamespaceURL
  rw [pySplit_two p i hp hi]

/-- Witness for C5 at a resolvable concrete term. -/
theorem toNamespaceURLSpecWitness :
    toNamespaceURL gGolden ("DrugBank" ++ ":" ++ "DB01268") =
      (match gGolden.namespaces.find? (fun kv => kv.1 == "DrugBank") with
        | some kv => .ok (kv.2 ++ "DB01268")
        | none => .error (.NotImplementedException
            ("Term has a prefix not found in this instance. " ++
              ("DrugBank" ++ ":" ++ "DB01268")))) :=
  toNamespaceURLSpec gGolden "DrugBank" "DB01268" (by decide) (by decide)

/-- C5 counterexample: the term `DrugBank:DB:01268` has a first-colon
prefix that matches a namespace binding, yet resolving it raises a Python
`ValueError` from tuple unpacking - neither the claimed successful
concatenation nor a NotSupportedError. -/
theorem toNamespaceURLColonCounterexample :
    (gDrugBank.namespaces.find? (fun kv => kv.1 == "DrugBank")).isSome = true ∧
    toNamespaceURL gDrugBank "DrugBank:DB:01268" =
      .error (.ValueError "too many values to unpack") := by
  exact ⟨rfl, rfl⟩

theorem isEmpty_false_of_ne (s : String) (h : s ≠ "") : s.isEmpty = false := by
  cases hb : s.isEmpty with
  | true => exact absurd ((String.isEmpty_iff s).mp hb) h
  | false => rfl

/-- C6: `_formatFilterQuery` is a pure function of its arguments (two calls
with the same criteria yield the same text by definition), and on free-text
criteria the produced text is exactly the fixed template with the
`#%FILTER%` placeholder replaced by the AND-conjunction of one
`regex(?role_label, "...")` clause per supplied role. -/
theorem formatFilterQueryStrings (g : Graph) (of oe op : Option String)
    (hne : ¬ (of = none ∧ oe = none ∧ op = none))
    (hf : ∀ s, of = some s → s ≠ "") (he : ∀ s, oe = some s → s ≠ "")
    (hq : ∀ s, op = some s → s ≠ "") :
    formatFilterQuery g (strCrit of) (strCrit oe) (strCrit op) =
      .ok (pyReplace queryTemplate "#%FILTER%"
        ("FILTER (" ++ pyJoin " && "
          ((of.toList.map (fun s => "regex(?feature_label, \"" ++ s ++ "\")")) ++
           (oe.toList.map (fun s => "regex(?environment_label, \"" ++ s ++ "\")")) ++
           (op.toList.map (fun s => "regex(?phenotype_label, \"" ++ s ++ "\")"))) ++ ")")) := by
  rcases of with _ | fs <;> rcases oe with _ | es <;> rcases op with _ | qs
  · exact absurd ⟨rfl, rfl, rfl⟩ hne
  all_goals try have h1 : fs.isEmpty = false := isEmpty_false_of_ne fs (hf fs rfl)
  all_goals try have h2 : es.isEmpty = false := isEmpty_false_of_ne es (he es rfl)
  all_goals try have h3 : qs.isEmpty = false := isEmpty_false_of_ne qs (hq qs rfl)
  all_goals
    simp [formatFilterQuery, strCrit, strFilter, idsFilter, termsFilter,
      bind, Except.bind, pyJoin, *]

/-- Witness for C6: instantiation at the inputs of the unit test
`testFormatQuery` (one regex clause per role, conjoined in role order). -/
theorem formatFilterQueryStringsWitness :
    formatFilterQuery (Graph.mk [] []) (strCrit (some "*LOCATION*"))
      (strCrit (some "***DRUG***")) (strCrit (some "***DISEASE***")) =
      .ok (pyReplace queryTemplate "#%FILTER%"
        ("FILTER (" ++ pyJoin " && "
          (["regex(?feature_label, \"*LOCATION*\")"] ++
           ["regex(?environment_label, \"***DRUG***\")"] ++
           ["regex(?phenotype_label, \"***DISEASE***\")"]) ++ ")")) := by
  exact formatFilterQueryStrings (Graph.mk [] []) (some "*LOCATION*")
    (some "***DRUG***") (some "***DISEASE***")
    (by simp)
    (fun s hs => by cases hs; decide)
    (fun s hs => by cases hs; decide)
    (fun s hs => by cases hs; decide)

/-- C7: a structured criterion whose ontology terms carry explicit ids
contributes one exact URI equality clause `?feature = <id> ` per term -
never a regex - and the clauses of the criterion are joined by `||` into a
single parenthesised OR-group inside the substituted filter. -/
theorem formatFilterQueryTermIds (g : Graph) (terms : List OntTerm)
    (hne : terms ≠ [])
    (hids : ∀ t ∈ terms, ∃ s, t.id = some s ∧ s ≠ "") :
    (∀ t ∈ terms, ∀ s, t.id = some s → s ≠ "" →
      termClause g "feature" t = .ok ("?feature = <" ++ s ++ "> ")) ∧
    formatFilterQuery g (.dict [] terms) .none .none =
      .ok (pyReplace queryTemplate "#%FILTER%"
        ("FILTER (" ++ ("(" ++ pyJoin " || "
          (terms.map (fun t => "?feature = <" ++ t.id.getD "" ++ "> ")) ++ ")") ++ ")")) := by
  have hterm : ∀ t ∈ terms,
      termClause g "feature" t = .ok ("?feature = <" ++ t.id.getD "" ++ "> ") := by
    intro t ht
    rcases hids t ht with ⟨s, hid, hs⟩
    simp [termClause, hid, isEmpty_false_of_ne s hs]
  have hmap := mapExcept_ok_of_forall (termClause g "feature")
    (fun t => "?feature = <" ++ t.id.getD "" ++ "> ") terms hterm
  have hne2 : terms.isEmpty = false := by
    cases terms with
    | nil => exact absurd rfl hne
    | cons a l => rfl
  constructor
  · intro t ht s hs hsne
    simp [termClause, hs, isEmpty_false_of_ne s hsne]
  · simp [formatFilterQuery, strFilter, idsFilter, termsFilter, hne2, hmap,
      bind, Except.bind, pyJoin]

/-- Witness for C7 at two concrete explicit-id terms. -/
theorem formatFilterQueryTermIdsWitness :
    formatFilterQuery gGolden
      (.dict [] [{ id := some "http://purl.obolibrary.org/obo/SO_0001059" },
                 { id := some "http://ohsu.edu/cgd/27d2169c" }]) .none .none =
      .ok (pyReplace queryTemplate "#%FILTER%"
        ("FILTER (" ++ ("(" ++ pyJoin " || "
          (([{ id := some "http://purl.obolibrary.org/obo/SO_0001059" },
             { id := some "http://ohsu.edu/cgd/27d2169c" }] : List OntTerm).map
            (fun t => "?feature = <" ++ t.id.getD "" ++ "> ")) ++ ")") ++ ")")) :=
  (formatFilterQueryTermIds gGolden
    [{ id := some "http://purl.obolibrary.org/obo/SO_0001059" },
     { id := some "http://ohsu.edu/cgd/27d2169c" }]
    (by simp)
    (by simp)).2

theorem extract_filter (rows : List Row) :
    extractAssociationsDetails (rows.filter (fun r => rowHasKey r "feature")) =
      extractAssociationsDetails rows := by
  induction rows with
  | nil => rfl
  | cons r rest ih =>
    cases hk : rowHasKey r "feature" with
    | true => simp [List.filter_cons, hk, extractAssociationsDetails, ih]
    | false => simp [List.filter_cons, hk, extractAssociationsDetails, ih]

theorem build_filter (details : List Detail) (rows : List Row) :
    buildAssociationList details (rows.filter (fun r => rowHasKey r "feature")) =
      buildAssociationList details rows := by
  unfold buildAssociationList
  rw [List.filter_filter]
  have heq : (fun a => rowHasKey a "feature" && rowHasKey a "feature") =
      (fun a : Row => rowHasKey a "feature") := by
    funext a
    exact Bool.and_self _
  rw [heq]

/-- C2: the retrieval pipeline past the query discards exactly the binding
rows with no `feature` variable - dropping them from the input changes
nothing, so no exception can arise from a discarded row - and on success
it produces exactly one translated record per row in which `feature` is
bound. -/
theorem associationRowFiltering (g : Graph) (setId : String) (version : Option String)
    (rows : List Row) :
    processAssociations g setId version rows =
      processAssociations g setId version (rows.filter (fun r => rowHasKey r "feature")) ∧
    (∀ res, processAssociations g setId version rows = .ok res →
      res.length = rows.countP (fun r => rowHasKey r "feature")) := by
  constructor
  · unfold processAssociations
    rw [extract_filter rows]
    cases hex : extractAssociationsDetails rows with
    | error e => simp [bind, Except.bind]
    | ok uris =>
      simp only [bind, Except.bind]
      rw [build_filter]
  · intro res h
    unfold processAssociations at h
    cases hex : extractAssociationsDetails rows with
    | error e =>
      rw [hex] at h
      exact absurd h (by simp [bind, Except.bind])
    | ok uris =>
      rw [hex] at h
      simp only [bind, Except.bind] at h
      cases hb : buildAssociationList (detailTuples g uris) rows with
      | error e => rw [hb] at h; exact absurd h (by simp)
      | ok al =>
        rw [hb] at h
        have h1 := mapExcept_ok_length (toGA4GH g setId version) al res h
        unfold buildAssociationList at hb
        have h2 := mapExcept_ok_length (mkAssoc (detailTuples g uris))
          (rows.filter (fun r => rowHasKey r "feature")) al hb
        rw [h1, h2, List.countP_eq_length_filter]

/-- Witness for C2: on the worked example (one empty placeholder row and
one complete row) the pipeline succeeds with exactly one record. -/
theorem associationRowFilteringWitness :
    ((processAssociations gGolden "pas" none rowsGolden).toOption.getD []).length =
      rowsGolden.countP (fun r => rowHasKey r "feature") :=
  (associationRowFiltering gGolden "pas" none rowsGolden).2
    ((processAssociations gGolden "pas" none rowsGolden).toOption.getD []) (by rfl)

/-- C10: when the first kept row's phenotype detail bag has no entry for
the fixed `has quality` predicate, `getAssociations` raises a Python
`KeyError` carrying that predicate URI - an exception class outside the
module's own `exceptions.NotImplementedException` vocabulary - instead of
skipping the row or emitting a record without evidence. -/
theorem hasQualityKeyError (g : Graph) (setId : String) (version : Option String)
    (runQuery : String → List Row) (f e p : FilterCriterion)
    (ps : Option Nat) (off : Nat) (q : String) (rows : List Row)
    (r : Row) (rest : List Row) (uris : List String) (fU eU pU : String)
    (hq : formatFilterQuery g f e p = .ok q)
    (hrows : runQuery q = rows)
    (hfilter : rows.filter (fun x => rowHasKey x "feature") = r :: rest)
    (hex : extractAssociationsDetails rows = .ok uris)
    (hfU : rowGet (bindingsToDict r) "feature" = .ok fU)
    (heU : rowGet (bindingsToDict r) "environment" = .ok eU)
    (hpU : rowGet (bindingsToDict r) "phenotype" = .ok pU)
    (hmiss : List.lookup HAS_QUALITY (getDetails pU (detailTuples g uris)) = none) :
    getAssociations g setId version runQuery f e p ps off =
      .error (.KeyError HAS_QUALITY) ∧
    (∀ msg, (PyError.KeyError HAS_QUALITY) ≠ .NotImplementedException msg) := by
  constructor
  · unfold getAssociations
    rw [hq]
    simp only [bind, Except.bind]
    rw [hrows]
    unfold processAssociations
    rw [hex]
    simp only [bind, Except.bind]
    unfold buildAssociationList
    rw [hfilter]
    unfold mapExcept
    unfold mkAssoc
    simp only [bind, Except.bind]
    rw [hfU, heU, hpU]
    simp [bagGet, hmiss]
  · intro msg hh
    exact PyError.noConfusion hh

/-- Witness for C10: the worked example graph without its `has quality`
triple makes the retrieval raise the KeyError. -/
theorem hasQualityKeyErrorWitness :
    getAssociations gNoQuality "pas" none (fun _ => [rowGolden])
      (.str "KIT") .none .none none 0 = .error (.KeyError HAS_QUALITY) :=
  (hasQualityKeyError gNoQuality "pas" none (fun _ => [rowGolden])
    (.str "KIT") .none .none none 0
    ((formatFilterQuery gNoQuality (.str "KIT") .none .none).toOption.getD "")
    [rowGolden] rowGolden []
    ((extractAssociationsDetails [rowGolden]).toOption.getD [])
    featureURI environmentURI phenotypeURI
    (by rfl) (by rfl) (by rfl) (by rfl) (by rfl) (by rfl) (by rfl) (by rfl)).1

/-- C4 corrected: whenever `_toGA4GH` succeeds, the translated record's
evidence list is exactly one entry long regardless of any label in the
source graph, and that entry's description is `_getIdentifier` applied to
the association's `has quality` URI (the URI with its namespace stripped,
or Python `None` when no namespace matches) - not the evidence type's
label. -/
theorem toGA4GHEvidence (g : Graph) (setId : String) (version : Option String)
    (a : Assoc) (u : String) (hu : a.evidence = .s u) (fpa : FPAssoc)
    (h : toGA4GH g setId version a = .ok fpa) :
    fpa.evidence.length = 1 ∧
    ∀ ev ∈ fpa.evidence, ev.description = getIdentifier g u := by
  unfold toGA4GH at h
  rw [hu] at h
  simp only [pyValAsStr] at h
  simp only [bind, Except.bind] at h
  repeat' split at h
  all_goals try exact Except.noConfusion h
  injection h with h2
  subst h2
  refine ⟨rfl, ?_⟩
  intro ev hev
  rw [List.mem_singleton] at hev
  subst hev
  rfl

/-- Witness for C4 at the worked example. -/
theorem toGA4GHEvidenceWitness :
    ((toGA4GH gGolden "pas" none assocGolden).toOption.getD {}).evidence.length = 1 :=
  (toGA4GHEvidence gGolden "pas" none assocGolden evidenceURI rfl
    ((toGA4GH gGolden "pas" none assocGolden).toOption.getD {}) (by rfl)).1

/-- C4 counterexample: the worked example's evidence type (`ECO_0000033`)
has no label anywhere in the graph, yet the translated record carries one
evidence entry - the claimed empty evidence list never happens. -/
theorem toGA4GHEvidenceCounterexample :
    (gGolden.triples.filter (fun t =>
      t.subj == "http://purl.obolibrary.org/obo/ECO_0000033" && t.pred == LABEL)) = [] ∧
    (toGA4GH gGolden "pas" none assocGolden).map (fun r => r.evidence.length) = .ok 1 := by
  exact ⟨rfl, rfl⟩
